import Mathlib

/-!
Shallow embedding of the association-analysis pipeline of `src/appp.py`
(a Streamlit survey-analysis app).  The statistical core is the analyze
button handler (lines 166-245): clean the selected column pair, guard on
fewer than 3 valid rows, run a guarded Shapiro-Wilk normality test on each
series, select Pearson or Spearman from the two p-values, classify the
coefficient's direction and strength, and fit a regression line whose
failure is swallowed.

External library calls (pandas `pd.to_numeric` string parsing, scipy's
`shapiro`, `pearsonr`, `spearmanr`, `linregress`) are not code of this
repository; they are modelled as oracle functions collected in `Env`.
Python float NaN propagation matters for the classifiers, so scalar
results are modelled by `PyFloat`, a rational number or NaN, with
Python's comparison semantics (every ordered comparison against NaN is
false).
-/

namespace Appp

/-- A Python float as the pipeline observes it: either NaN or a numeric
value (modelled as a rational). -/
inductive PyFloat where
  | nan : PyFloat
  | val : ℚ → PyFloat
deriving DecidableEq, Repr

/-- `np.isnan`. -/
def PyFloat.isNaN : PyFloat → Bool
  | .nan => true
  | .val _ => false

/-- Python `<` on floats: any comparison involving NaN is false. -/
def PyFloat.lt : PyFloat → PyFloat → Bool
  | .val a, .val b => decide (a < b)
  | _, _ => false

/-- Python `>` on floats. -/
def PyFloat.gt (a b : PyFloat) : Bool := PyFloat.lt b a

/-- Python `abs` on floats: `abs(nan)` is NaN. -/
def PyFloat.abs : PyFloat → PyFloat
  | .nan => .nan
  | .val q => .val |q|

/-- A cell of an uploaded table: a numeric value, a text value, or a
missing entry (NaN / empty). -/
inductive Cell where
  | num : ℚ → Cell
  | text : String → Cell
  | missing : Cell
deriving DecidableEq, Repr

/-- `pd.to_numeric(value, errors="coerce")` on one cell: numeric values
pass through unchanged, text is given to the (external) string parser,
anything unparseable or missing coerces to missing (`none`).
`parse` is the pandas numeric parser, an external oracle. -/
def to_numeric (parse : String → Option ℚ) : Cell → Option ℚ
  | .num q => some q
  | .text s => parse s
  | .missing => none

/-- Writing a coerced column back into the DataFrame
(`df[c] = pd.to_numeric(df[c], errors="coerce")`, line 134): each cell
becomes its numeric value or a missing entry. -/
def applyCoerce (parse : String → Option ℚ) (c : Cell) : Cell :=
  match to_numeric parse c with
  | some q => .num q
  | none => .missing

/-- One row of the selected two-column frame after coercion: the row
survives `dropna()` iff both cells coerced to numbers. -/
def coerceRow (parse : String → Option ℚ) (r : Cell × Cell) : Option (ℚ × ℚ) :=
  match to_numeric parse r.1, to_numeric parse r.2 with
  | some a, some b => some (a, b)
  | _, _ => none

/-- A row dropped by `dropna()`: its x or y cell is missing/non-numeric. -/
def badRow (parse : String → Option ℚ) (r : Cell × Cell) : Bool :=
  (coerceRow parse r).isNone

/-- Lines 167-170: `data = df[[col_x, col_y]].copy()`, coerce both columns
to numeric, `data = data.dropna()`.  The rows of the two selected columns
are paired in order and every row with a missing/non-numeric value in
either column is removed. -/
def cleanPair (parse : String → Option ℚ) (xs ys : List Cell) : List (ℚ × ℚ) :=
  (xs.zip ys).filterMap (coerceRow parse)

/-- Lines 178-188, `safe_shapiro`: NaN when the series is shorter than 3,
NaN when the series is constant (`np.all(x == x[0])`), otherwise the
Shapiro-Wilk p-value with any internal exception caught and mapped to
NaN.  `sh` is scipy's `shapiro`, an external oracle that may raise. -/
def safe_shapiro (sh : List ℚ → Except Unit PyFloat) (x : List ℚ) : PyFloat :=
  if x.length < 3 then .nan
  else if x.all (fun v => decide (v = x.headI)) then .nan
  else
    match sh x with
    | .ok p => p
    | .error _ => .nan

/-- Line 199: `use_pearson = (not np.isnan(p_x)) and (not np.isnan(p_y))
and (p_x > 0.05) and (p_y > 0.05)`.  The threshold 0.05 is written
`mkRat 5 100` so that the kernel can evaluate it (the scientific-notation
literal is irreducible); `literal_0_05` below proves they are equal. -/
def use_pearson (p_x p_y : PyFloat) : Bool :=
  !p_x.isNaN && !p_y.isNaN && p_x.gt (.val (mkRat 5 100)) && p_y.gt (.val (mkRat 5 100))

/-- The two correlation methods of lines 201-206. -/
inductive Method where
  | pearson : Method
  | spearman : Method
deriving DecidableEq, Repr

/-- The two direction labels of line 208 (language-independent form of
`T["positive"]` / `T["negative"]`). -/
inductive Direction where
  | positive : Direction
  | negative : Direction
deriving DecidableEq, Repr

/-- The four strength labels of lines 210-219. -/
inductive Strength where
  | veryWeak : Strength
  | weak : Strength
  | moderate : Strength
  | strong : Strength
deriving DecidableEq, Repr

/-- Line 208: `direction = positive if corr > 0 else negative`. -/
def direction (corr : PyFloat) : Direction :=
  if corr.gt (.val 0) then .positive else .negative

/-- Lines 211-219: `abs_r = abs(corr)` then the if/elif chain
`< 0.3` very weak, `< 0.5` weak, `< 0.7` moderate, else strong.
The cutoffs 0.3, 0.5, 0.7 are written with `mkRat` so that the kernel
can evaluate them; `literal_0_3`, `literal_0_5` and `literal_0_7` below
prove they are the source's literals. -/
def strength (corr : PyFloat) : Strength :=
  let abs_r := corr.abs
  if abs_r.lt (.val (mkRat 3 10)) then .veryWeak
  else if abs_r.lt (.val (mkRat 5 10)) then .weak
  else if abs_r.lt (.val (mkRat 7 10)) then .moderate
  else .strong

/-- The external library functions the handler calls: the pandas numeric
string parser and scipy's `shapiro`, `pearsonr`, `spearmanr`,
`linregress`.  `shapiro` and `linregress` may raise (modelled by
`Except`); the correlation functions return a (coefficient, p-value)
pair, either of which may be NaN. -/
structure Env where
  parse : String → Option ℚ
  shapiro : List ℚ → Except Unit PyFloat
  pearsonr : List ℚ → List ℚ → PyFloat × PyFloat
  spearmanr : List ℚ → List ℚ → PyFloat × PyFloat
  linregress : List ℚ → List ℚ → Except Unit (ℚ × ℚ)

/-- The structured output the handler renders for one successful
analysis: method, coefficient, correlation p-value, both normality
p-values, direction, strength, the optional regression line
(slope, intercept; `none` when `linregress` raised) and the cleaned
pairs used for plotting. -/
structure AssocResult where
  method : Method
  corr : PyFloat
  pval : PyFloat
  p_x : PyFloat
  p_y : PyFloat
  direction : Direction
  strength : Strength
  regression : Option (ℚ × ℚ)
  cleaned : List (ℚ × ℚ)
deriving DecidableEq, Repr

/-- Outcome of one press of the analyze button: either the line 173
`st.error` + `st.stop()` path (no partial result of any kind), or a full
result. -/
inductive AnalyzeResult where
  | insufficientData : AnalyzeResult
  | ok : AssocResult → AnalyzeResult
deriving DecidableEq, Repr

/-- The x-series `data[col_x]` of the cleaned frame. -/
def dxOf (data : List (ℚ × ℚ)) : List ℚ := data.map Prod.fst

/-- The y-series `data[col_y]` of the cleaned frame. -/
def dyOf (data : List (ℚ × ℚ)) : List ℚ := data.map Prod.snd

/-- Line 190: `p_x = safe_shapiro(data[col_x])`. -/
def pxOf (env : Env) (data : List (ℚ × ℚ)) : PyFloat :=
  safe_shapiro env.shapiro (dxOf data)

/-- Line 191: `p_y = safe_shapiro(data[col_y])`. -/
def pyOf (env : Env) (data : List (ℚ × ℚ)) : PyFloat :=
  safe_shapiro env.shapiro (dyOf data)

/-- Line 199 applied to the two computed normality p-values. -/
def usePearsonOf (env : Env) (data : List (ℚ × ℚ)) : Bool :=
  use_pearson (pxOf env data) (pyOf env data)

/-- Lines 201-206: the (coefficient, p-value) pair of the selected
correlation method. -/
def corrPair (env : Env) (data : List (ℚ × ℚ)) : PyFloat × PyFloat :=
  if usePearsonOf env data then env.pearsonr (dxOf data) (dyOf data)
  else env.spearmanr (dxOf data) (dyOf data)

/-- Lines 201-206: the method tag of the selected branch. -/
def methodOf (env : Env) (data : List (ℚ × ℚ)) : Method :=
  if usePearsonOf env data then .pearson else .spearman

/-- Lines 239-245: `try: lr = linregress(...); plot line; except: pass`.
A raised exception silently omits the line. -/
def regOf (env : Env) (data : List (ℚ × ℚ)) : Option (ℚ × ℚ) :=
  match env.linregress (dxOf data) (dyOf data) with
  | .ok sl => some sl
  | .error _ => none

/-- The full result assembled by lines 176-245 once the precondition
passed. -/
def buildResult (env : Env) (data : List (ℚ × ℚ)) : AssocResult :=
  ⟨methodOf env data, (corrPair env data).1, (corrPair env data).2,
   pxOf env data, pyOf env data,
   direction (corrPair env data).1, strength (corrPair env data).1,
   regOf env data, data⟩

/-- Lines 166-245, the analyze button handler: clean the pair, stop with
the insufficient-data error when fewer than 3 rows remain (line 172),
otherwise produce the full result. -/
def analyze (env : Env) (xs ys : List Cell) : AnalyzeResult :=
  if (cleanPair env.parse xs ys).length < 3 then .insufficientData
  else .ok (buildResult env (cleanPair env.parse xs ys))

/-- Column lookup by name in the uploaded table (`df[[col_x, col_y]]`):
the first column with the given name, empty if absent. -/
def getCol (df : List (String × List Cell)) (name : String) : List Cell :=
  match df.find? (fun p => p.1 == name) with
  | some p => p.2
  | none => []

/-- Lines 163-170: the handler run on two column names selected from the
same DataFrame.  Nothing validates that the names differ, but line 167's
`df[[col_x, col_y]]` keeps both selected columns, duplicates included, so
the two-column frame `data` carries the entries `(cx, col)` and
`(cy, col)` as selected.  Line 168's `data[col_x]` then returns every
column of `data` named `col_x` — a single series when the names differ,
a two-column DataFrame when `col_x == col_y` — and `pd.to_numeric`
accepts only a single series, raising an uncaught `TypeError` otherwise
(modelled by `Except.error`), before any cleaning or analysis runs. -/
def analyzeCols (env : Env) (df : List (String × List Cell)) (cx cy : String) :
    Except Unit AnalyzeResult :=
  match [(cx, getCol df cx), (cy, getCol df cy)].filter (fun p => p.1 == cx),
      [(cx, getCol df cx), (cy, getCol df cy)].filter (fun p => p.1 == cy) with
  | [x], [y] => .ok (analyze env x.2 y.2)
  | _, _ => .error ()

/-- Replace only the `linregress` oracle of an environment (used to state
that step 8 cannot influence steps 1-7). -/
def setLinregress (env : Env) (g : List ℚ → List ℚ → Except Unit (ℚ × ℚ)) : Env :=
  ⟨env.parse, env.shapiro, env.pearsonr, env.spearmanr, g⟩

/-! Concrete oracle instances used to exercise the theorems on closed
inputs. -/

/-- A parser that accepts no string (witness data below is numeric, so the
parser is never consulted). -/
def parseNone : String → Option ℚ := fun _ => none

/-- A Shapiro oracle that always reports p-value one half. -/
def shHalf : List ℚ → Except Unit PyFloat := fun _ => .ok (.val (mkRat 1 2))

/-- A Shapiro oracle that always raises. -/
def shRaise : List ℚ → Except Unit PyFloat := fun _ => .error ()

/-- A correlation oracle that always reports coefficient 1, p-value 0. -/
def corrOne : List ℚ → List ℚ → PyFloat × PyFloat := fun _ _ => (.val 1, .val 0)

/-- A correlation oracle that reports NaN coefficient and NaN p-value
(scipy's Spearman output on a constant series). -/
def corrNaN : List ℚ → List ℚ → PyFloat × PyFloat := fun _ _ => (.nan, .nan)

/-- A regression oracle that fits slope 1, intercept 0. -/
def lrOkay : List ℚ → List ℚ → Except Unit (ℚ × ℚ) := fun _ _ => .ok (1, 0)

/-- A regression oracle that always raises. -/
def lrRaise : List ℚ → List ℚ → Except Unit (ℚ × ℚ) := fun _ _ => .error ()

/-- An environment whose normality p-values pass the 0.05 threshold, so
the Pearson branch is selected. -/
def envP : Env := ⟨parseNone, shHalf, corrOne, corrOne, lrOkay⟩

/-- An environment whose Shapiro oracle raises (p-values become NaN) and
whose Spearman oracle yields NaN. -/
def envN : Env := ⟨parseNone, shRaise, corrOne, corrNaN, lrOkay⟩

/-- A concrete numeric column of three distinct values. -/
def colA : List Cell := [.num 1, .num 2, .num 4]

/-- A second concrete numeric column of three distinct values. -/
def colB : List Cell := [.num 1, .num 3, .num 9]

/-! Helper lemmas shared by the claim theorems. -/

/-- The kernel-friendly form of the source literal `0.05` (line 199). -/
lemma literal_0_05 : (0.05 : ℚ) = mkRat 5 100 := by
  rw [Rat.mkRat_eq_div]; norm_num

/-- The kernel-friendly form of the source literal `0.3` (line 212). -/
lemma literal_0_3 : (0.3 : ℚ) = mkRat 3 10 := by
  rw [Rat.mkRat_eq_div]; norm_num

/-- The kernel-friendly form of the source literal `0.5` (line 214). -/
lemma literal_0_5 : (0.5 : ℚ) = mkRat 5 10 := by
  rw [Rat.mkRat_eq_div]; norm_num

/-- The kernel-friendly form of the source literal `0.7` (line 216). -/
lemma literal_0_7 : (0.7 : ℚ) = mkRat 7 10 := by
  rw [Rat.mkRat_eq_div]; norm_num

/-- A successful button press is exactly: at least 3 cleaned rows, and the
result assembled by `buildResult` over the cleaned pair. -/
lemma analyze_eq_ok_iff (env : Env) (xs ys : List Cell) (r : AssocResult) :
    analyze env xs ys = .ok r ↔
      (¬ (cleanPair env.parse xs ys).length < 3 ∧
        r = buildResult env (cleanPair env.parse xs ys)) := by
  unfold analyze
  split
  next hlt => simp [hlt]
  next hlt => simp [hlt, eq_comm]

/-- The line 199 boolean, read as a proposition. -/
lemma use_pearson_eq_true_iff (a b : PyFloat) :
    use_pearson a b = true ↔
      (a.isNaN = false ∧ b.isNaN = false ∧
        PyFloat.gt a (.val 0.05) = true ∧ PyFloat.gt b (.val 0.05) = true) := by
  rw [literal_0_05]
  simp [use_pearson, Bool.and_eq_true, Bool.not_eq_true', and_assoc]

/-- The method tag records exactly the line 199 test. -/
lemma methodOf_eq_pearson_iff (env : Env) (data : List (ℚ × ℚ)) :
    methodOf env data = .pearson ↔ usePearsonOf env data = true := by
  unfold methodOf
  split <;> simp_all

/-- C1: for every successful analysis (so the cleaned pair has at least 3
rows), the reported normality p-values are the guarded Shapiro-Wilk
outputs on the cleaned x- and y-series, the method is Pearson iff both
p-values are computable (not NaN) and strictly exceed 0.05, and in every
other case the method is Spearman. -/
theorem claim_C1 (env : Env) (xs ys : List Cell) (r : AssocResult)
    (h : analyze env xs ys = .ok r) :
    r.p_x = safe_shapiro env.shapiro (r.cleaned.map Prod.fst) ∧
    r.p_y = safe_shapiro env.shapiro (r.cleaned.map Prod.snd) ∧
    (r.method = .pearson ↔
      (r.p_x.isNaN = false ∧ r.p_y.isNaN = false ∧
        PyFloat.gt r.p_x (.val 0.05) = true ∧
        PyFloat.gt r.p_y (.val 0.05) = true)) ∧
    (r.method = .spearman ↔ ¬ r.method = .pearson) := by
  obtain ⟨hlen, rfl⟩ := (analyze_eq_ok_iff env xs ys r).mp h
  refine ⟨rfl, rfl, ?_, ?_⟩
  · exact (methodOf_eq_pearson_iff env _).trans (use_pearson_eq_true_iff _ _)
  · cases hm : (buildResult env (cleanPair env.parse xs ys)).method <;> simp

/-- Witness for C1 at a concrete environment and columns: the Pearson
branch is taken, with both p-values one half. -/
theorem claim_C1_witness :
    (buildResult envP (cleanPair envP.parse colA colB)).p_x
        = safe_shapiro envP.shapiro
            ((buildResult envP (cleanPair envP.parse colA colB)).cleaned.map Prod.fst) ∧
    (buildResult envP (cleanPair envP.parse colA colB)).method = Method.pearson := by
  obtain ⟨h1, -, h3, -⟩ :=
    claim_C1 envP colA colB (buildResult envP (cleanPair envP.parse colA colB)) rfl
  exact ⟨h1, h3.mpr (by rw [literal_0_05]; decide)⟩

/-- C2: when the cleaned pair has fewer than 3 rows the analysis fails
with the insufficient-data error and nothing else, regardless of the
statistical oracles (no normality test, correlation, or regression is
consulted): any environment with the same parser fails identically. -/
theorem claim_C2 (env env₂ : Env) (xs ys : List Cell)
    (hp : env₂.parse = env.parse)
    (h : (cleanPair env.parse xs ys).length < 3) :
    analyze env xs ys = .insufficientData ∧
    analyze env₂ xs ys = .insufficientData := by
  unfold analyze
  rw [hp]
  simp [h]

/-- Witness for C2: two valid rows only, under two different oracle
environments. -/
theorem claim_C2_witness :
    analyze envP [Cell.num 1, Cell.num 2] [Cell.num 1, Cell.num 3]
        = AnalyzeResult.insufficientData ∧
    analyze envN [Cell.num 1, Cell.num 2] [Cell.num 1, Cell.num 3]
        = AnalyzeResult.insufficientData :=
  claim_C2 envP envN [Cell.num 1, Cell.num 2] [Cell.num 1, Cell.num 3]
    rfl (by decide)

/-- The line 199 boolean is false as soon as either p-value is NaN. -/
lemma use_pearson_false_of_nan (a b : PyFloat)
    (h : a.isNaN = true ∨ b.isNaN = true) : use_pearson a b = false := by
  rcases h with h | h <;> simp [use_pearson, h]

/-- C3: the guarded normality test reports "not computable" (NaN) when the
series has fewer than 3 values, when it is constant, and when the external
Shapiro-Wilk call raises (the failure is caught, never propagated); and a
NaN normality result on either series forces the Spearman method. -/
theorem claim_C3 (sh : List ℚ → Except Unit PyFloat) (x : List ℚ)
    (env : Env) (xs ys : List Cell) (r : AssocResult) :
    (x.length < 3 → safe_shapiro sh x = .nan) ∧
    ((∀ u ∈ x, ∀ v ∈ x, u = v) → safe_shapiro sh x = .nan) ∧
    (sh x = .error () → safe_shapiro sh x = .nan) ∧
    (analyze env xs ys = .ok r → r.p_x.isNaN = true ∨ r.p_y.isNaN = true →
      r.method = .spearman) := by
  refine ⟨?_, ?_, ?_, ?_⟩
  · intro h
    unfold safe_shapiro
    rw [if_pos h]
  · intro hc
    match x with
    | [] => rfl
    | a :: l =>
      unfold safe_shapiro
      split
      · rfl
      next hlen =>
        have hall : (a :: l).all (fun v => decide (v = (a :: l).headI)) = true := by
          rw [List.all_eq_true]
          intro v hv
          have := hc v hv a (List.mem_cons_self a l)
          simp [this]
        rw [if_pos hall]
  · intro he
    unfold safe_shapiro
    split
    · rfl
    split
    · rfl
    · rw [he]
  · intro h hnan
    obtain ⟨-, rfl⟩ := (analyze_eq_ok_iff env xs ys r).mp h
    have hfalse : usePearsonOf env (cleanPair env.parse xs ys) = false :=
      use_pearson_false_of_nan _ _ hnan
    show methodOf env (cleanPair env.parse xs ys) = .spearman
    simp [methodOf, hfalse]

/-- Witness for C3: a short series, a constant series, a raising Shapiro
oracle, and a concrete run whose NaN p-values force Spearman. -/
theorem claim_C3_witness :
    safe_shapiro shRaise [1, 2] = PyFloat.nan ∧
    safe_shapiro shHalf [5, 5, 5] = PyFloat.nan ∧
    safe_shapiro shRaise [1, 2, 4] = PyFloat.nan ∧
    (buildResult envN (cleanPair envN.parse colA colB)).method = Method.spearman := by
  refine ⟨?_, ?_, ?_, ?_⟩
  · exact (claim_C3 shRaise [1, 2] envN colA colB
      (buildResult envN (cleanPair envN.parse colA colB))).1 (by decide)
  · exact (claim_C3 shHalf [5, 5, 5] envN colA colB
      (buildResult envN (cleanPair envN.parse colA colB))).2.1 (by decide)
  · exact (claim_C3 shRaise [1, 2, 4] envN colA colB
      (buildResult envN (cleanPair envN.parse colA colB))).2.2.1 rfl
  · exact (claim_C3 shRaise [1, 2, 4] envN colA colB
      (buildResult envN (cleanPair envN.parse colA colB))).2.2.2 rfl
      (Or.inl (by decide))

/-- The classifier of lines 210-219, rewritten as nested ifs over `|q|`
with the source's decimal literals. -/
lemma strength_val (q : ℚ) :
    strength (.val q) =
      if |q| < 0.3 then .veryWeak
      else if |q| < 0.5 then .weak
      else if |q| < 0.7 then .moderate
      else .strong := by
  rw [literal_0_3, literal_0_5, literal_0_7]
  simp only [strength, PyFloat.abs, PyFloat.lt, decide_eq_true_eq]

/-- C4: the strength category is determined by the absolute coefficient
via half-open lower-inclusive bins, with the boundary magnitudes 0.3, 0.5
and 0.7 falling into the higher bin; and the analyzer's reported strength
is exactly this classifier applied to its reported coefficient. -/
theorem claim_C4 (q : ℚ) :
    (strength (.val q) = .veryWeak ↔ |q| < 0.3) ∧
    (strength (.val q) = .weak ↔ 0.3 ≤ |q| ∧ |q| < 0.5) ∧
    (strength (.val q) = .moderate ↔ 0.5 ≤ |q| ∧ |q| < 0.7) ∧
    (strength (.val q) = .strong ↔ 0.7 ≤ |q|) ∧
    strength (.val 0.3) = .weak ∧
    strength (.val 0.5) = .moderate ∧
    strength (.val 0.7) = .strong ∧
    (∀ env xs ys r, analyze env xs ys = .ok r → r.strength = strength r.corr) := by
  refine ⟨?_, ?_, ?_, ?_, ?_, ?_, ?_, ?_⟩
  · constructor
    · intro hs
      rw [strength_val] at hs
      split_ifs at hs with h1 h2 h3
      exact h1
    · intro h1
      rw [strength_val, if_pos h1]
  · constructor
    · intro hs
      rw [strength_val] at hs
      split_ifs at hs with h1 h2 h3
      exact ⟨not_lt.mp h1, h2⟩
    · rintro ⟨ha, hb⟩
      rw [strength_val, if_neg (not_lt.mpr ha), if_pos hb]
  · constructor
    · intro hs
      rw [strength_val] at hs
      split_ifs at hs with h1 h2 h3
      exact ⟨not_lt.mp h2, h3⟩
    · rintro ⟨ha, hb⟩
      rw [strength_val, if_neg (not_lt.mpr (le_trans (by norm_num) ha)),
        if_neg (not_lt.mpr ha), if_pos hb]
  · constructor
    · intro hs
      rw [strength_val] at hs
      split_ifs at hs with h1 h2 h3
      exact not_lt.mp h3
    · intro ha
      rw [strength_val, if_neg (not_lt.mpr (le_trans (by norm_num) ha)),
        if_neg (not_lt.mpr (le_trans (by norm_num) ha)),
        if_neg (not_lt.mpr ha)]
  · rw [show (PyFloat.val 0.3) = PyFloat.val (mkRat 3 10) from by rw [literal_0_3]]
    decide
  · rw [show (PyFloat.val 0.5) = PyFloat.val (mkRat 5 10) from by rw [literal_0_5]]
    decide
  · rw [show (PyFloat.val 0.7) = PyFloat.val (mkRat 7 10) from by rw [literal_0_7]]
    decide
  · intro env xs ys r h
    obtain ⟨-, rfl⟩ := (analyze_eq_ok_iff env xs ys r).mp h
    rfl

/-- Witness for C4: the boundary value 0.3 lands in "weak", 0.7 in
"strong", and a concrete run reports the classifier of its coefficient. -/
theorem claim_C4_witness :
    strength (PyFloat.val 0.3) = Strength.weak ∧
    strength (PyFloat.val 0.7) = Strength.strong ∧
    (buildResult envP (cleanPair envP.parse colA colB)).strength
      = strength (buildResult envP (cleanPair envP.parse colA colB)).corr := by
  refine ⟨(claim_C4 0.3).2.2.2.2.1, (claim_C4 0.3).2.2.2.2.2.2.1, ?_⟩
  exact (claim_C4 0).2.2.2.2.2.2.2 envP colA colB
    (buildResult envP (cleanPair envP.parse colA colB)) rfl

/-- C5: the direction is "positive" exactly when the coefficient is
strictly positive, and "negative" otherwise; a coefficient of exactly 0
is classified "negative"; and the analyzer's reported direction is this
classifier applied to its reported coefficient. -/
theorem claim_C5 (q : ℚ) :
    (direction (.val q) = .positive ↔ 0 < q) ∧
    (direction (.val q) = .negative ↔ ¬ 0 < q) ∧
    direction (.val 0) = .negative ∧
    (∀ env xs ys r, analyze env xs ys = .ok r → r.direction = direction r.corr) := by
  refine ⟨?_, ?_, by decide, ?_⟩
  · by_cases h : 0 < q <;> simp [direction, PyFloat.gt, PyFloat.lt, h]
  · by_cases h : 0 < q <;> simp [direction, PyFloat.gt, PyFloat.lt, h]
  · intro env xs ys r h
    obtain ⟨-, rfl⟩ := (analyze_eq_ok_iff env xs ys r).mp h
    rfl

/-- Witness for C5: the zero coefficient is "negative", and a concrete
run reports the classifier of its coefficient. -/
theorem claim_C5_witness :
    direction (PyFloat.val 0) = Direction.negative ∧
    (buildResult envP (cleanPair envP.parse colA colB)).direction
      = direction (buildResult envP (cleanPair envP.parse colA colB)).corr :=
  ⟨(claim_C5 0).2.2.1, (claim_C5 0).2.2.2 envP colA colB
    (buildResult envP (cleanPair envP.parse colA colB)) rfl⟩

/-- `dropna` keeps, in order, exactly the rows whose two cells both
coerce, and carries their coerced values. -/
lemma filterMap_coerceRow_eq (parse : String → Option ℚ) (l : List (Cell × Cell)) :
    l.filterMap (coerceRow parse) =
      (l.filter (fun r => !(badRow parse r))).map
        (fun r => ((to_numeric parse r.1).getD 0, (to_numeric parse r.2).getD 0)) := by
  induction l with
  | nil => rfl
  | cons hd tl ih =>
    rcases h1 : to_numeric parse hd.1 with _ | a <;>
      rcases h2 : to_numeric parse hd.2 with _ | b <;>
      simp [List.filterMap_cons, List.filter_cons, coerceRow, badRow, h1, h2, ih]

/-- C6: the cleaned pair is no longer than the source, its length is the
source row count minus the number of rows with a missing/non-numeric x or
y value, its x- and y-series have equal length, and it is, in source row
order, exactly the coercion of the surviving rows (which form a sublist
of the source rows). -/
theorem claim_C6 (parse : String → Option ℚ) (xs ys : List Cell)
    (h : xs.length = ys.length) :
    (cleanPair parse xs ys).length ≤ xs.length ∧
    (cleanPair parse xs ys).length
        = xs.length - ((xs.zip ys).filter (badRow parse)).length ∧
    ((cleanPair parse xs ys).map Prod.fst).length
        = ((cleanPair parse xs ys).map Prod.snd).length ∧
    cleanPair parse xs ys
        = ((xs.zip ys).filter (fun r => !(badRow parse r))).map
            (fun r => ((to_numeric parse r.1).getD 0, (to_numeric parse r.2).getD 0)) ∧
    List.Sublist ((xs.zip ys).filter (fun r => !(badRow parse r))) (xs.zip ys) := by
  have hzip : (xs.zip ys).length = xs.length := by
    rw [List.length_zip, h, Nat.min_self]
  have hclean : cleanPair parse xs ys = (xs.zip ys).filterMap (coerceRow parse) := rfl
  have hmain := filterMap_coerceRow_eq parse (xs.zip ys)
  have hsplit := List.length_eq_length_filter_add (l := xs.zip ys) (badRow parse)
  refine ⟨?_, ?_, by simp, hmain, List.filter_sublist _⟩
  · calc (cleanPair parse xs ys).length
        ≤ (xs.zip ys).length := by
          rw [hclean]; exact List.length_filterMap_le _ _
      _ = xs.length := hzip
  · have hlen : (cleanPair parse xs ys).length
        = ((xs.zip ys).filter (fun r => !(badRow parse r))).length := by
      rw [hclean, hmain, List.length_map]
    omega

/-- Witness for C6 on a concrete frame with one missing x-cell and one
non-numeric y-cell. -/
theorem claim_C6_witness :
    (cleanPair parseNone
        [Cell.num 1, Cell.missing, Cell.num 3, Cell.num 4]
        [Cell.num 5, Cell.num 6, Cell.text "x", Cell.num 8]).length ≤ 4 ∧
    (cleanPair parseNone
        [Cell.num 1, Cell.missing, Cell.num 3, Cell.num 4]
        [Cell.num 5, Cell.num 6, Cell.text "x", Cell.num 8]).length
      = 4 - (([Cell.num 1, Cell.missing, Cell.num 3, Cell.num 4].zip
          [Cell.num 5, Cell.num 6, Cell.text "x", Cell.num 8]).filter
            (badRow parseNone)).length := by
  obtain ⟨h1, h2, -, -, -⟩ := claim_C6 parseNone
    [Cell.num 1, Cell.missing, Cell.num 3, Cell.num 4]
    [Cell.num 5, Cell.num 6, Cell.text "x", Cell.num 8] rfl
  exact ⟨h1, h2⟩

/-- C7: the regression step cannot influence steps 1-7.  Replacing the
`linregress` oracle by any other never turns a successful analysis into a
failure (or conversely), and changes none of the method, coefficient,
p-value, normality results, direction, strength or cleaned data; when the
replacement raises on the cleaned series, the line is silently omitted
(`regression = none`) while the rest of the result is still produced. -/
theorem claim_C7 (env : Env) (g : List ℚ → List ℚ → Except Unit (ℚ × ℚ))
    (xs ys : List Cell) :
    (analyze (setLinregress env g) xs ys = .insufficientData ↔
      analyze env xs ys = .insufficientData) ∧
    (∀ r r', analyze env xs ys = .ok r →
      analyze (setLinregress env g) xs ys = .ok r' →
      r'.method = r.method ∧ r'.corr = r.corr ∧ r'.pval = r.pval ∧
      r'.p_x = r.p_x ∧ r'.p_y = r.p_y ∧ r'.direction = r.direction ∧
      r'.strength = r.strength ∧ r'.cleaned = r.cleaned ∧
      (∀ e, g (r.cleaned.map Prod.fst) (r.cleaned.map Prod.snd) = .error e →
        r'.regression = none)) ∧
    (∀ r, analyze env xs ys = .ok r →
      ∃ r', analyze (setLinregress env g) xs ys = .ok r') := by
  refine ⟨?_, ?_, ?_⟩
  · by_cases hc : (cleanPair env.parse xs ys).length < 3 <;>
      simp [analyze, setLinregress, hc]
  · intro r r' h h'
    obtain ⟨hlen, rfl⟩ := (analyze_eq_ok_iff env xs ys r).mp h
    obtain ⟨-, rfl⟩ := (analyze_eq_ok_iff (setLinregress env g) xs ys r').mp h'
    refine ⟨rfl, rfl, rfl, rfl, rfl, rfl, rfl, rfl, ?_⟩
    intro e he
    simp only [buildResult] at he
    show regOf (setLinregress env g)
        (cleanPair (setLinregress env g).parse xs ys) = none
    simp [regOf, setLinregress, dxOf, dyOf, he]
  · intro r h
    obtain ⟨hlen, -⟩ := (analyze_eq_ok_iff env xs ys r).mp h
    exact ⟨buildResult (setLinregress env g) (cleanPair env.parse xs ys),
      (analyze_eq_ok_iff _ xs ys _).mpr ⟨hlen, rfl⟩⟩

/-- Witness for C7: with a raising regression oracle the concrete run
still succeeds, keeps the same coefficient, and omits the line. -/
theorem claim_C7_witness :
    (buildResult (setLinregress envP lrRaise) (cleanPair envP.parse colA colB)).corr
        = (buildResult envP (cleanPair envP.parse colA colB)).corr ∧
    (buildResult (setLinregress envP lrRaise) (cleanPair envP.parse colA colB)).regression
        = none := by
  obtain ⟨-, h2, -⟩ := claim_C7 envP lrRaise colA colB
  obtain ⟨-, hc, -, -, -, -, -, -, hreg⟩ := h2
    (buildResult envP (cleanPair envP.parse colA colB))
    (buildResult (setLinregress envP lrRaise) (cleanPair envP.parse colA colB))
    rfl rfl
  exact ⟨hc, hreg () rfl⟩

/-- Counterexample to C8 as stated: on a concrete frame, analysing a
column against itself does not complete with a coefficient — line 168's
`pd.to_numeric` receives the duplicate-column DataFrame that
`df[[c, c]]` produced and raises an uncaught TypeError. -/
theorem claim_C8_counterexample :
    analyzeCols envP [("a", colA)] "a" "a" = Except.error () := rfl

/-- C8 (amended): no validation guard compares the two selected column
names, but with `col_x == col_y` the analysis never completes and no
coefficient is produced: `df[[c, c]]` keeps duplicate columns, so
`data[col_x]` is a two-column DataFrame and `pd.to_numeric` at line 168
raises an uncaught TypeError before any cleaning or statistics.  With
two distinct names the handler proceeds to the ordinary analysis of the
two selected columns. -/
theorem claim_C8 (env : Env) (df : List (String × List Cell)) (cx cy : String) :
    (cx = cy → analyzeCols env df cx cy = .error ()) ∧
    (cx ≠ cy → analyzeCols env df cx cy
        = .ok (analyze env (getCol df cx) (getCol df cy))) := by
  constructor
  · rintro rfl
    simp [analyzeCols]
  · intro hne
    have h1 : (cy == cx) = false := beq_eq_false_iff_ne.mpr (Ne.symm hne)
    have h2 : (cx == cy) = false := beq_eq_false_iff_ne.mpr hne
    simp [analyzeCols, h1, h2]

/-- Witness for C8: on a concrete two-column frame, selecting the same
name twice raises while two distinct names produce the ordinary
analysis. -/
theorem claim_C8_witness :
    analyzeCols envP [("a", colA), ("b", colB)] "a" "a" = Except.error () ∧
    analyzeCols envP [("a", colA), ("b", colB)] "a" "b"
        = Except.ok (analyze envP colA colB) := by
  obtain ⟨h1, -⟩ := claim_C8 envP [("a", colA), ("b", colB)] "a" "a"
  obtain ⟨-, h2⟩ := claim_C8 envP [("a", colA), ("b", colB)] "a" "b"
  exact ⟨h1 rfl, h2 (by decide)⟩

/-- Re-coercing a column whose cells are all numeric changes nothing. -/
lemma map_applyCoerce_id (parse : String → Option ℚ) :
    ∀ col : List Cell, (∀ c ∈ col, ∃ q : ℚ, c = Cell.num q) →
      col.map (applyCoerce parse) = col
  | [], _ => rfl
  | hd :: tl, h => by
    obtain ⟨q, rfl⟩ := h hd (List.mem_cons_self hd tl)
    simp only [List.map_cons]
    rw [map_applyCoerce_id parse tl (fun c hc => h c (List.mem_cons_of_mem _ hc))]
    rfl

/-- C9: the numeric coercion step is a no-op on a column whose values are
already numeric — per cell, coercion of a numeric value returns that
value, and the rewritten column equals the original. -/
theorem claim_C9 (parse : String → Option ℚ) (col : List Cell)
    (h : ∀ c ∈ col, ∃ q : ℚ, c = Cell.num q) :
    col.map (applyCoerce parse) = col ∧
    ∀ q : ℚ, to_numeric parse (Cell.num q) = some q :=
  ⟨map_applyCoerce_id parse col h, fun _ => rfl⟩

/-- Witness for C9 on a concrete numeric column. -/
theorem claim_C9_witness :
    [Cell.num 1, Cell.num 2, Cell.num 3].map (applyCoerce parseNone)
        = [Cell.num 1, Cell.num 2, Cell.num 3] ∧
    ∀ q : ℚ, to_numeric parseNone (Cell.num q) = some q :=
  claim_C9 parseNone [Cell.num 1, Cell.num 2, Cell.num 3]
    (by intro c hc; simp at hc; rcases hc with h | h | h <;> exact ⟨_, h⟩)

/-- C10: when the computed coefficient is NaN, every ordered comparison
against it is false, so the final else-branches label the result
"negative" and "strong". -/
theorem claim_C10 (env : Env) (xs ys : List Cell) (r : AssocResult)
    (h : analyze env xs ys = .ok r) (hn : r.corr = .nan) :
    r.direction = .negative ∧ r.strength = .strong := by
  obtain ⟨-, rfl⟩ := (analyze_eq_ok_iff env xs ys r).mp h
  have hn' : (corrPair env (cleanPair env.parse xs ys)).1 = PyFloat.nan := hn
  constructor
  · show direction (corrPair env (cleanPair env.parse xs ys)).1 = Direction.negative
    rw [hn']
    rfl
  · show strength (corrPair env (cleanPair env.parse xs ys)).1 = Strength.strong
    rw [hn']
    rfl

/-- Witness for C10: a run whose raising Shapiro oracle forces Spearman
and whose Spearman oracle returns NaN (the constant-series scenario). -/
theorem claim_C10_witness :
    (buildResult envN (cleanPair envN.parse colA colB)).direction
        = Direction.negative ∧
    (buildResult envN (cleanPair envN.parse colA colB)).strength
        = Strength.strong :=
  claim_C10 envN colA colB (buildResult envN (cleanPair envN.parse colA colB))
    rfl rfl

end Appp
